import Mathlib

/-!
Verification of the `isAllowed` access-control examples.

The repository contains three implementations of an access decision
function over the same `User` / `Resource` data model:

* Example 2 (`src/example/isAllowed_v2.ts`): hardcoded guard-style logic.
* Example 3 (`src/unnamed/part_000`): the strategy pattern, a policy
  object bundling an `is_banned` check and one visibility handler per
  visibility variant.
* Example 4 (`src/unnamed/part_001`): chain of responsibility, a policy
  as an ordered list of evaluators returning `boolean | undefined`
  (`Option Bool` here: `some true` = Allow, `some false` = Deny,
  `none` = Abstain / undefined).

All three files declare identical `User` and `Resource` interfaces, so
they are defined once here.  Each file also declares a module-level
`BANNED_USERS : string[]` (initialised empty) that the ban evaluators
read; the spec treats the ban set as external data supplied by the
environment, so the embedding takes the banned list as an explicit
parameter (a fixed snapshot), letting the theorems quantify over it.
-/

inductive Tier where
  | basic
  | premium
deriving DecidableEq, Repr

inductive Vis where
  | public
  | premium
  | «private»
deriving DecidableEq, Repr

structure User where
  name : String
  tier : Tier
  is_admin : Bool
deriving DecidableEq, Repr

structure Resource where
  vis : Vis
  owner : String
deriving DecidableEq, Repr

namespace Example4

/-- An AccessEvaluator returns `some b` for a definitive decision and
`none` (TypeScript `undefined`) when it cannot decide. -/
abbrev AccessEvaluator : Type := User → Resource → Option Bool

/-- EVALUATORS.ALLOW_ADMINS: `user.is_admin ? true : undefined`. -/
def ALLOW_ADMINS : AccessEvaluator :=
  fun user _ => if user.is_admin then some true else none

/-- EVALUATORS.DENY_BANNED: `BANNED_USERS.includes(user.name) ? false : undefined`,
with the module-level `BANNED_USERS` list passed as a snapshot parameter. -/
def DENY_BANNED (BANNED_USERS : List String) : AccessEvaluator :=
  fun user _ => if BANNED_USERS.contains user.name then some false else none

/-- EVALUATORS.OWNER_CAN_ACCESS: `user.name === res.owner ? true : undefined`. -/
def OWNER_CAN_ACCESS : AccessEvaluator :=
  fun user res => if user.name = res.owner then some true else none

/-- EVALUATORS.ALLOW_BY_TIER: switch on `res.vis`; `public` → `true`;
`premium` → `user.tier === "premium" ? true : false` (the source marks the
`false` arm with a BUG comment); `private` → `undefined`. -/
def ALLOW_BY_TIER : AccessEvaluator :=
  fun user res =>
    match res.vis with
    | Vis.public => some true
    | Vis.premium => if user.tier = Tier.premium then some true else some false
    | Vis.«private» => none

/-- EVALUATORS.FREE_PREMIUM_ACCESS: `if (res.vis === "premium") { return true; }`
(implicitly `undefined` otherwise). -/
def FREE_PREMIUM_ACCESS : AccessEvaluator :=
  fun _ res => if res.vis = Vis.premium then some true else none

/-- The EVALUATORS object of the source, as the list of its five named
evaluators (the rule library), given a ban-list snapshot. -/
def EVALUATORS (BANNED_USERS : List String) : List AccessEvaluator :=
  [ALLOW_ADMINS, DENY_BANNED BANNED_USERS, OWNER_CAN_ACCESS,
   ALLOW_BY_TIER, FREE_PREMIUM_ACCESS]

/-- A policy is a sequence of AccessEvaluators applied in order. -/
abbrev AccessPolicy : Type := List AccessEvaluator

/-- evaluatePolicy: calls evaluators in sequence, returning the first
non-undefined result; `undefined` (`none`) if all return undefined. -/
def evaluatePolicy : AccessPolicy → User → Resource → Option Bool
  | [], _, _ => none
  | fn :: rest, user, res =>
    match fn user res with
    | some result => some result
    | none => evaluatePolicy rest user res

/-- normal_policy: `[ALLOW_ADMINS, DENY_BANNED, OWNER_CAN_ACCESS, ALLOW_BY_TIER]`. -/
def normal_policy (BANNED_USERS : List String) : AccessPolicy :=
  [ALLOW_ADMINS, DENY_BANNED BANNED_USERS, OWNER_CAN_ACCESS, ALLOW_BY_TIER]

/-- anniversary_policy: normal_policy with FREE_PREMIUM_ACCESS inserted
before ALLOW_BY_TIER. -/
def anniversary_policy (BANNED_USERS : List String) : AccessPolicy :=
  [ALLOW_ADMINS, DENY_BANNED BANNED_USERS, OWNER_CAN_ACCESS,
   FREE_PREMIUM_ACCESS, ALLOW_BY_TIER]

/-- strict_policy: no tiered access, only admins, bans and owners. -/
def strict_policy (BANNED_USERS : List String) : AccessPolicy :=
  [ALLOW_ADMINS, DENY_BANNED BANNED_USERS, OWNER_CAN_ACCESS]

/-- debug_policy: a single evaluator that always returns true. -/
def debug_policy : AccessPolicy :=
  [fun _ _ => some true]

/-- Variant of normal_policy with DENY_BANNED and OWNER_CAN_ACCESS
swapped, used to show chain order is decision-relevant. -/
def swapped_policy (BANNED_USERS : List String) : AccessPolicy :=
  [ALLOW_ADMINS, OWNER_CAN_ACCESS, DENY_BANNED BANNED_USERS, ALLOW_BY_TIER]

/-- isAllowed: evaluate the policy chain; if it returned undefined,
default to false (`?? false`). -/
def isAllowed (policy : AccessPolicy) (user : User) (res : Resource) : Bool :=
  (evaluatePolicy policy user res).getD false

/-- evaluateChain: the generic version of evaluatePolicy; the variadic
argument tuple `...args` becomes a single (possibly product) argument. -/
def evaluateChain {TArgs TResult : Type} :
    List (TArgs → Option TResult) → TArgs → Option TResult
  | [], _ => none
  | fn :: rest, args =>
    match fn args with
    | some result => some result
    | none => evaluateChain rest args

end Example4

/-- Modelled from the spec: the FirstDecisive combinator over a sequence
of Decisions — "returns the first non-`Abstain` Decision in sequence
order; if all are `Abstain`, returns `Abstain`" (the empty sequence
yields `Abstain`).  Decisions are `Option Bool` as in Example 4. -/
def FirstDecisive : List (Option Bool) → Option Bool
  | [] => none
  | none :: rest => FirstDecisive rest
  | some b :: _ => some b

/-- Modelled from the spec: the engine call shape
`isAllowed(policy, subject, object, default_on_abstain)` of section 4.4,
mapping `Allow → true`, `Deny → false`, `Abstain → default_on_abstain`.
The repository's Example 4 `isAllowed` takes no such fourth argument. -/
def isAllowedSpecEngine (policy : Example4.AccessPolicy) (user : User)
    (res : Resource) (default_on_abstain : Bool) : Bool :=
  match Example4.evaluatePolicy policy user res with
  | some true => true
  | some false => false
  | none => default_on_abstain

namespace Example3

/-- The allow_by_visibility record: one boolean rule per visibility level. -/
structure VisibilityRules where
  public : User → Resource → Bool
  premium : User → Resource → Bool
  «private» : User → Resource → Bool

/-- An AccessPolicy of Example 3: a ban check plus visibility rules. -/
structure AccessPolicy where
  is_banned : User → Resource → Bool
  allow_by_visibility : VisibilityRules

/-- normal_policies: bans from BANNED_USERS (snapshot parameter);
public → true, premium → premium tier, private → owner. -/
def normal_policies (BANNED_USERS : List String) : AccessPolicy where
  is_banned := fun user _ => BANNED_USERS.contains user.name
  allow_by_visibility :=
    { public := fun _ _ => true
      premium := fun user _ => decide (user.tier = Tier.premium)
      «private» := fun user res => decide (user.name = res.owner) }

/-- isAllowed of Example 3: admin guard, ban guard, then dispatch on
`res.vis` into the policy's allow_by_visibility table. -/
def isAllowed (policy : AccessPolicy) (user : User) (res : Resource) : Bool :=
  if user.is_admin then
    true
  else if policy.is_banned user res then
    false
  else
    match res.vis with
    | Vis.public => policy.allow_by_visibility.public user res
    | Vis.premium => policy.allow_by_visibility.premium user res
    | Vis.«private» => policy.allow_by_visibility.«private» user res

end Example3

namespace Example2

/-- isAllowed of Example 2: admin guard, ban guard (BANNED_USERS as a
snapshot parameter), then the if/else chain on `res.vis`. -/
def isAllowed (BANNED_USERS : List String) (user : User) (res : Resource) : Bool :=
  if user.is_admin then
    true
  else if BANNED_USERS.contains user.name then
    false
  else
    match res.vis with
    | Vis.public => true
    | Vis.premium => decide (user.tier = Tier.premium)
    | Vis.«private» => decide (user.name = res.owner)

end Example2

/-- The subject of end-to-end scenario B. -/
def alice : User := { name := "alice", tier := Tier.basic, is_admin := false }

/-- A premium resource owned by bob, as in scenario B. -/
def bobPremium : Resource := { vis := Vis.premium, owner := "bob" }

/-- Claim C1 (code evaluated at the failing input): the source's
ALLOW_BY_TIER evaluator, applied to a basic-tier non-admin Subject and a
premium-visibility Object, returns `some false` (Deny) rather than the
`none` (Abstain) the claim requires; the source flags this arm with a
BUG comment. -/
theorem allowByTier_denies_basic_on_premium :
    Example4.ALLOW_BY_TIER alice bobPremium = some false ∧
    Example4.ALLOW_BY_TIER alice bobPremium ≠ none := by
  constructor
  · rfl
  · decide

/-- Claim C2, counterexample: on an all-Abstain chain (strict_policy for
a non-admin, non-banned, non-owner Subject) the repository's isAllowed
returns false from its built-in `?? false` fallback, while the
spec-modelled four-argument engine with default_on_abstain = true
returns true; the code's isAllowed has no caller-supplied default. -/
theorem isAllowed_silent_fallback_counterexample :
    Example4.evaluatePolicy (Example4.strict_policy []) alice bobPremium = none ∧
    Example4.isAllowed (Example4.strict_policy []) alice bobPremium = false ∧
    isAllowedSpecEngine (Example4.strict_policy []) alice bobPremium true = true := by
  refine ⟨by decide, by decide, by decide⟩

/-- Claim C2 as amended: Example 4's isAllowed maps a chain result of
`some true` to true, `some false` to false, and `none` (all-Abstain) to
false via the engine's built-in `?? false` fallback; there is no
caller-supplied default_on_abstain argument. -/
theorem isAllowed_maps_decisions (policy : Example4.AccessPolicy)
    (u : User) (r : Resource) :
    (Example4.evaluatePolicy policy u r = some true →
      Example4.isAllowed policy u r = true) ∧
    (Example4.evaluatePolicy policy u r = some false →
      Example4.isAllowed policy u r = false) ∧
    (Example4.evaluatePolicy policy u r = none →
      Example4.isAllowed policy u r = false) := by
  refine ⟨fun h => ?_, fun h => ?_, fun h => ?_⟩ <;>
    simp [Example4.isAllowed, h]

/-- Witness for the amended C2 theorem at concrete inputs. -/
theorem isAllowed_maps_decisions_witness :
    Example4.isAllowed Example4.debug_policy alice bobPremium = true ∧
    Example4.isAllowed (Example4.strict_policy []) alice bobPremium = false :=
  ⟨(isAllowed_maps_decisions Example4.debug_policy alice bobPremium).1 rfl,
   (isAllowed_maps_decisions (Example4.strict_policy []) alice bobPremium).2.2
     (by decide)⟩

/-- Claim C3: evaluatePolicy over a chain of constant evaluators realizes
the FirstDecisive combinator; FirstDecisive yields Abstain (`none`) on
every all-Abstain sequence, the empty one included, and agrees with
"first non-`none` element in sequence order" (List.findSome? id). -/
theorem evaluatePolicy_realizes_firstDecisive (ds : List (Option Bool))
    (u : User) (r : Resource) :
    Example4.evaluatePolicy (ds.map fun d => fun _ _ => d) u r = FirstDecisive ds ∧
    ((∀ d ∈ ds, d = none) → FirstDecisive ds = none) ∧
    FirstDecisive ds = ds.findSome? id := by
  refine ⟨?_, ?_, ?_⟩
  · induction ds with
    | nil => rfl
    | cons d t ih =>
      cases d <;> simp [Example4.evaluatePolicy, FirstDecisive, ih]
  · intro h
    induction ds with
    | nil => rfl
    | cons d t ih =>
      have hd : d = none := h d (by simp)
      subst hd
      exact ih fun x hx => h x (by simp [hx])
  · induction ds with
    | nil => rfl
    | cons d t ih =>
      cases d <;> simp [FirstDecisive, List.findSome?, ih]

/-- Witness for C3 at a concrete decision sequence. -/
theorem evaluatePolicy_realizes_firstDecisive_witness :
    FirstDecisive [none, none] = none :=
  (evaluatePolicy_realizes_firstDecisive [none, none] alice bobPremium).2.1
    (by decide)

/-- Claim C4: admin bypass — for every ban-list snapshot, Subject with
the admin flag set and Object, isAllowed under normal_policy is true. -/
theorem admin_bypass (BANNED_USERS : List String) (u : User) (r : Resource)
    (h : u.is_admin = true) :
    Example4.isAllowed (Example4.normal_policy BANNED_USERS) u r = true := by
  simp [Example4.isAllowed, Example4.normal_policy, Example4.evaluatePolicy,
    Example4.ALLOW_ADMINS, h]

/-- Witness for C4: an admin on the ban list still gets access. -/
theorem admin_bypass_witness :
    Example4.isAllowed (Example4.normal_policy ["root"])
      ⟨"root", Tier.basic, true⟩ bobPremium = true :=
  admin_bypass ["root"] ⟨"root", Tier.basic, true⟩ bobPremium rfl

/-- Claim C5: under normal_policy (DENY_BANNED before OWNER_CAN_ACCESS)
every non-admin banned owner is refused, while a policy with those two
evaluators swapped grants access to some such Subject/Object pair —
chain order is decision-relevant. -/
theorem ban_overrides_ownership :
    (∀ (BANNED_USERS : List String) (u : User) (r : Resource),
      u.is_admin = false → BANNED_USERS.contains u.name = true →
      u.name = r.owner →
      Example4.isAllowed (Example4.normal_policy BANNED_USERS) u r = false) ∧
    (∃ (BANNED_USERS : List String) (u : User) (r : Resource),
      u.is_admin = false ∧ BANNED_USERS.contains u.name = true ∧
      u.name = r.owner ∧
      Example4.isAllowed (Example4.swapped_policy BANNED_USERS) u r = true) := by
  constructor
  · intro BANNED_USERS u r hadmin hban _
    have hmem : u.name ∈ BANNED_USERS := by simpa using hban
    simp [Example4.isAllowed, Example4.normal_policy, Example4.evaluatePolicy,
      Example4.ALLOW_ADMINS, Example4.DENY_BANNED, hadmin, hmem]
  · refine ⟨["carol"], ⟨"carol", Tier.basic, false⟩, ⟨Vis.public, "carol"⟩,
      rfl, by decide, rfl, by decide⟩

/-- Witness for C5 at the concrete banned owner carol. -/
theorem ban_overrides_ownership_witness :
    Example4.isAllowed (Example4.normal_policy ["carol"])
      ⟨"carol", Tier.basic, false⟩ ⟨Vis.public, "carol"⟩ = false :=
  ban_overrides_ownership.1 ["carol"] ⟨"carol", Tier.basic, false⟩
    ⟨Vis.public, "carol"⟩ rfl (by decide) rfl

/-- Claim C6: end-to-end scenario B — for basic-tier non-admin alice,
not on the ban set, and bob's premium resource, normal_policy refuses
access and anniversary_policy (FREE_PREMIUM_ACCESS inserted before
ALLOW_BY_TIER) grants it. -/
theorem scenario_B (BANNED_USERS : List String)
    (h : BANNED_USERS.contains alice.name = false) :
    Example4.isAllowed (Example4.normal_policy BANNED_USERS) alice bobPremium = false ∧
    Example4.isAllowed (Example4.anniversary_policy BANNED_USERS) alice bobPremium = true := by
  have h1 : Example4.ALLOW_ADMINS alice bobPremium = none := by decide
  have hmem : alice.name ∉ BANNED_USERS := by simpa using h
  have h2 : Example4.DENY_BANNED BANNED_USERS alice bobPremium = none := by
    simp [Example4.DENY_BANNED, hmem]
  have h3 : Example4.OWNER_CAN_ACCESS alice bobPremium = none := by decide
  have h4 : Example4.ALLOW_BY_TIER alice bobPremium = some false := by decide
  have h5 : Example4.FREE_PREMIUM_ACCESS alice bobPremium = some true := by decide
  constructor <;>
    simp [Example4.isAllowed, Example4.normal_policy,
      Example4.anniversary_policy, Example4.evaluatePolicy,
      h1, h2, h3, h4, h5]

/-- Witness for C6 with the source's (empty) ban list. -/
theorem scenario_B_witness :
    Example4.isAllowed (Example4.normal_policy []) alice bobPremium = false ∧
    Example4.isAllowed (Example4.anniversary_policy []) alice bobPremium = true :=
  scenario_B [] rfl

/-- Claim C7: the short-circuiting chain walk of evaluatePolicy equals
running every evaluator in order and applying the FirstDecisive
combinator to the full Decision sequence. -/
theorem evaluatePolicy_eq_firstDecisive_of_map (policy : Example4.AccessPolicy)
    (u : User) (r : Resource) :
    Example4.evaluatePolicy policy u r =
      FirstDecisive (policy.map fun fn => fn u r) := by
  induction policy with
  | nil => rfl
  | cons fn rest ih =>
    cases h : fn u r <;>
      simp [Example4.evaluatePolicy, FirstDecisive, h, ih]

/-- Claim C8: every evaluator of the rule library is deterministic —
equal Subject/Object inputs (for a fixed ban-list snapshot) yield
identical Decisions on repeated calls. -/
theorem evaluators_deterministic (BANNED_USERS : List String)
    (e : Example4.AccessEvaluator) (_hmem : e ∈ Example4.EVALUATORS BANNED_USERS)
    (s s' : User) (o o' : Resource) (hs : s = s') (ho : o = o') :
    e s o = e s' o' := by
  subst hs
  subst ho
  rfl

/-- Witness for C8: ALLOW_ADMINS called twice on equal inputs. -/
theorem evaluators_deterministic_witness :
    Example4.ALLOW_ADMINS alice bobPremium = Example4.ALLOW_ADMINS alice bobPremium :=
  evaluators_deterministic [] Example4.ALLOW_ADMINS (List.Mem.head _)
    alice alice bobPremium bobPremium rfl rfl

/-- Claim C9: the generic evaluateChain, specialized to evaluator chains
over a (User, Resource) argument pair with Bool results, computes the
same result (undefined included) as evaluatePolicy on every policy. -/
theorem evaluateChain_eq_evaluatePolicy (policy : Example4.AccessPolicy)
    (u : User) (r : Resource) :
    Example4.evaluateChain
        (policy.map fun fn => fun args : User × Resource => fn args.1 args.2)
        (u, r) =
      Example4.evaluatePolicy policy u r := by
  induction policy with
  | nil => rfl
  | cons fn rest ih =>
    cases h : fn u r <;>
      simp [Example4.evaluateChain, Example4.evaluatePolicy, h, ih]

/-- Claim C10: Example 3's strategy-pattern isAllowed applied with
normal_policies agrees with Example 2's hardcoded guard-style isAllowed
on every User and Resource, reading the same ban list. -/
theorem strategy_eq_hardcoded (BANNED_USERS : List String)
    (u : User) (r : Resource) :
    Example3.isAllowed (Example3.normal_policies BANNED_USERS) u r =
      Example2.isAllowed BANNED_USERS u r := by
  rfl
